import Mathlib

/-!
Verification of the Real-Estate-Analyzer core pipeline (`app.py`) against its
natural-language specification.

The embedding below translates the pure data-shaping functions of `app.py`
(`clean_json_string`, `normalize_value`, `extract_structured_data`,
`build_summary_pdf`, the two Q&A prompt builders) into Lean.  External
collaborators that are not part of the repository (the OpenAI completion
backend, `json.loads`, `json.dumps`, the FPDF writer) are modelled explicitly:
the backend call outcome is a parameter, the JSON decoder is an abstract
`String → Option Obj` parameter (with a small executable model used for
concrete instances), and the FPDF document serialization is modelled as the
concatenation of the texts handed to it.
-/

namespace RealEstateAnalyzer

/-- A Python value as produced by `json.loads` and consumed by
`normalize_value`: `None`, a string scalar, a dict (ordered key/value pairs,
CPython dicts preserve insertion order), or a list. -/
inductive Value where
  | vnone : Value
  | vstr : String → Value
  | vdict : List (String × Value) → Value
  | vlist : List Value → Value
deriving Repr

/-- A decoded JSON object: ordered association list of top-level keys. -/
abbrev Obj := List (String × Value)

/-- Python `repr` of a string: quote with single quotes.  (CPython's escaping
of quotes, backslashes and control characters is not modelled; no claim
below depends on it.) -/
def pyReprStr (s : String) : String := "'" ++ s ++ "'"

mutual

/-- Python `repr` of a value (used by `str` on dicts/lists, whose elements
are rendered with `repr`). -/
def pyRepr : Value → String
  | Value.vnone => "None"
  | Value.vstr s => pyReprStr s
  | Value.vdict l => "\x7b" ++ pyReprPairs l ++ "\x7d"
  | Value.vlist l => "[" ++ pyReprElems l ++ "]"

/-- Comma-joined `repr` renderings of a dict's pairs. -/
def pyReprPairs : List (String × Value) → String
  | [] => ""
  | [(k, v)] => pyReprStr k ++ ": " ++ pyRepr v
  | (k, v) :: p :: rest => pyReprStr k ++ ": " ++ pyRepr v ++ ", " ++ pyReprPairs (p :: rest)

/-- Comma-joined `repr` renderings of a list's elements. -/
def pyReprElems : List Value → String
  | [] => ""
  | [v] => pyRepr v
  | v :: w :: rest => pyRepr v ++ ", " ++ pyReprElems (w :: rest)

end

/-- Python `str()` of a value: a string is itself, `None` is `"None"`, and
dicts/lists fall back to `repr`. -/
def pyStr : Value → String
  | Value.vstr s => s
  | Value.vnone => "None"
  | Value.vdict l => pyRepr (Value.vdict l)
  | Value.vlist l => pyRepr (Value.vlist l)

/-- `normalize_value` from `app.py` (lines 181-189), branch for branch:
dicts are joined as `f"\x7bk\x7d: \x7bv\x7d"` pairs (the key verbatim, the value via
`str`), lists are joined element-wise via `str`, then `None` and the empty
string map to the em-dash placeholder, and any other scalar is `str`-ed. -/
def normalize_value : Value → String
  | Value.vdict l => String.intercalate ", " (l.map fun p => p.1 ++ ": " ++ pyStr p.2)
  | Value.vlist l => String.intercalate ", " (l.map pyStr)
  | Value.vnone => "—"
  | Value.vstr s => if s = "" then "—" else s

/-- Capitalize the first character of a word (Python `str.title` on a word). -/
def capitalizeWord (w : String) : String :=
  match w.data with
  | [] => ""
  | c :: rest => String.mk (c.toUpper :: rest)

/-- Split a character list at underscores (Python `k.split("_")`). -/
def splitUnderscore : List Char → List String
  | [] => [""]
  | c :: rest =>
    let ws := splitUnderscore rest
    if c = '_' then "" :: ws
    else
      match ws with
      | [] => [String.mk [c]]
      | w :: tail => String.mk (c :: w.data) :: tail

/-- Re-case a field key readably, per the spec's words: underscores become
spaces and each word is title-cased. -/
def recaseKey (k : String) : String :=
  String.intercalate " " ((splitUnderscore k.data).map capitalizeWord)

/-- The field-value rendering rules exactly as the spec states them (§4.3):
empty/missing maps to the placeholder, a mapping joins re-cased `key: value`
pairs with a comma separator preserving order, a sequence joins its elements,
any other scalar is string-converted. -/
def normalizeValueSpec : Value → String
  | Value.vnone => "—"
  | Value.vstr s => if s = "" then "—" else s
  | Value.vdict l => String.intercalate ", " (l.map fun p => recaseKey p.1 ++ ": " ++ pyStr p.2)
  | Value.vlist l => String.intercalate ", " (l.map pyStr)

/-- The spec's rendering rules amended to match the code: mapping keys are
used verbatim (no underscore-to-space re-casing, no title-casing); the
empty-to-placeholder rule applies to the `None` and empty-string scalars. -/
def normalizeValueSpecVerbatimKeys : Value → String
  | Value.vnone => "—"
  | Value.vstr s => if s = "" then "—" else s
  | Value.vdict l => String.intercalate ", " (l.map fun p => p.1 ++ ": " ++ pyStr p.2)
  | Value.vlist l => String.intercalate ", " (l.map pyStr)

/-- C6 counterexample: on the mapping `\x7b"a_b": "1"\x7d` the code renders the key
verbatim as `a_b: 1`, while the spec's rules demand the re-cased `A B: 1`;
the two renderings differ, so `normalize_value` does not implement the
spec's re-casing rule. -/
theorem C6_counterexample :
    normalize_value (Value.vdict [("a_b", Value.vstr "1")]) = "a_b: 1" ∧
    normalizeValueSpec (Value.vdict [("a_b", Value.vstr "1")]) = "A B: 1" ∧
    ("a_b: 1" : String) ≠ "A B: 1" := by
  refine ⟨rfl, by decide, by decide⟩

/-- C6 amended: `normalize_value` implements the spec's rendering rules with
mapping keys used verbatim instead of re-cased — it agrees with the amended
rule set on every value. -/
theorem C6_normalize_value_amended (v : Value) :
    normalize_value v = normalizeValueSpecVerbatimKeys v := by
  cases v <;> rfl

/-- C8 counterexample: rendering is not idempotent.  The empty mapping
renders to the empty string, and re-rendering that empty string yields the
placeholder em dash, which differs. -/
theorem C8_counterexample :
    normalize_value (Value.vdict []) = "" ∧
    normalize_value (Value.vstr (normalize_value (Value.vdict []))) = "—" ∧
    ("" : String) ≠ "—" := by
  exact ⟨rfl, rfl, by decide⟩

/-- C8 amended: `normalize_value` maps `None` and the empty string to the
placeholder, and re-rendering is the identity for every value whose rendering
is nonempty; a value whose rendering is the empty string — for instance an
empty mapping or sequence, or a sequence of empty strings — re-renders to
the placeholder instead. -/
theorem C8_render_amended :
    (normalize_value Value.vnone = "—" ∧ normalize_value (Value.vstr "") = "—") ∧
    ∀ x : Value, normalize_value x ≠ "" →
      normalize_value (Value.vstr (normalize_value x)) = normalize_value x := by
  refine ⟨⟨rfl, rfl⟩, ?_⟩
  intro x h
  have hstep : normalize_value (Value.vstr (normalize_value x)) =
      if normalize_value x = "" then "—" else normalize_value x := rfl
  rw [hstep, if_neg h]

/-- C8 witness: the amended idempotence applied at the concrete scalar
`"hi"`. -/
theorem C8_witness :
    normalize_value (Value.vstr (normalize_value (Value.vstr "hi"))) =
      normalize_value (Value.vstr "hi") :=
  C8_render_amended.2 (Value.vstr "hi") (by decide)

/-- C10: applied to an empty mapping or an empty sequence, `normalize_value`
returns the empty string (the join of zero elements), not the placeholder;
the placeholder arises for the `None` and empty-string scalars, whose check
comes after the mapping and sequence branches. -/
theorem C10_empty_containers :
    normalize_value (Value.vdict []) = "" ∧
    normalize_value (Value.vlist []) = "" ∧
    normalize_value Value.vnone = "—" ∧
    normalize_value (Value.vstr "") = "—" ∧
    ("" : String) ≠ "—" := by
  exact ⟨rfl, rfl, rfl, rfl, by decide⟩

/-- Whitespace characters stripped by Python's `str.strip()` (the ASCII
whitespace set; exotic Unicode space characters are not modelled — no claim
depends on them). -/
def pyIsSpace (c : Char) : Bool :=
  c = ' ' || c = '\t' || c = '\n' || c = '\r' || c = '\x0b' || c = '\x0c'

/-- Strip the characters satisfying `p` from both ends of a string
(Python `str.strip(chars)`). -/
def pyStripChars (p : Char → Bool) (s : String) : String :=
  String.mk (((s.data.dropWhile p).reverse.dropWhile p).reverse)

/-- Python `str.strip()`: remove leading and trailing whitespace. -/
def pyStrip (s : String) : String := pyStripChars pyIsSpace s

/-- The backtick character. -/
def btick : Char := "`".data.headD ' '

/-- Python `str.strip` with a backtick argument: remove leading and trailing
backticks. -/
def pyStripBacktick (s : String) : String := pyStripChars (fun c => c = btick) s

/-- Python `str.startswith`. -/
def pyStartsWith (pre s : String) : Bool := pre.data.isPrefixOf s.data

/-- Remove the first occurrence of `old` from a character list
(Python `s.replace(old, "", 1)`). -/
def listReplaceFirst (old : List Char) : List Char → List Char
  | [] => []
  | c :: rest =>
    if old.isPrefixOf (c :: rest) then (c :: rest).drop old.length
    else c :: listReplaceFirst old rest

/-- Remove the first occurrence of `old` from a string
(Python `s.replace(old, "", 1)`). -/
def replaceFirst (old s : String) : String :=
  String.mk (listReplaceFirst old.data s.data)

/-- Whether `old` occurs as a contiguous substring of `l`
(Python `old in s`). -/
def occursIn (old : List Char) : List Char → Bool
  | [] => old.isPrefixOf ([] : List Char)
  | c :: rest => old.isPrefixOf (c :: rest) || occursIn old rest

/-- `clean_json_string` from `app.py` (lines 138-147): a falsy input maps to
`"\x7b\x7d"`; otherwise strip whitespace, and when the result starts with a triple
backtick, strip all surrounding backticks and remove the first occurrence of
`"json\n"` and then of `"json\r\n"` (the leading language tag); finally strip
whitespace again. -/
def clean_json_string (s : String) : String :=
  if s = "" then "\x7b\x7d"
  else
    let s1 := pyStrip s
    let s2 :=
      if pyStartsWith "```" s1 then
        replaceFirst "json\r\n" (replaceFirst "json\n" (pyStripBacktick s1))
      else s1
    pyStrip s2

/-- `extract_structured_data` from `app.py` (lines 255-263), after the
backend responded: clean the response, decode it with the JSON decoder
`parse`, and on success return the decoded object unchanged, on failure
return the single-key record mapping `"notes"` to the cleaned candidate.
`parse` abstracts `json.loads` restricted to object results (the Python
stdlib decoder is not repository code); all universal theorems quantify
over it. -/
def extract_structured_data_of_response (parse : String → Option Obj) (raw : String) : Obj :=
  let cleaned := clean_json_string raw
  match parse cleaned with
  | some data => data
  | none => [("notes", Value.vstr cleaned)]

/-- `extract_structured_data` from `app.py` (lines 195-263) with the backend
call outcome made explicit: `Except.error e` is the completion call raising
`e`, `Except.ok raw` is a response with content `raw`.  Nothing in the
function catches an exception raised by the call, so an error outcome
propagates unchanged. -/
def extract_structured_data (parse : String → Option Obj) (outcome : Except String String) :
    Except String Obj :=
  match outcome with
  | Except.error e => Except.error e
  | Except.ok raw => Except.ok (extract_structured_data_of_response parse raw)

/-- The caller-side handling in `app.py` (lines 500-506): the Streamlit
handler wraps the extraction call in a try/except and proceeds with the
empty record when the call raised. -/
def analyze_structured (parse : String → Option Obj) (outcome : Except String String) : Obj :=
  match extract_structured_data parse outcome with
  | Except.ok r => r
  | Except.error _ => []

/-- Scan forward to the next double quote, returning the characters before
it and those after it. -/
def splitAtQuote : List Char → Option (List Char × List Char)
  | [] => none
  | c :: rest =>
    if c = '"' then some ([], rest)
    else (splitAtQuote rest).map fun p => (c :: p.1, p.2)

/-- Parse a double-quoted string literal (no escapes), returning it and the
remaining characters. -/
def parseStringLit : List Char → Option (String × List Char)
  | c :: rest =>
    if c = '"' then (splitAtQuote rest).map fun p => (String.mk p.1, p.2)
    else none
  | [] => none

/-- Skip JSON whitespace. -/
def skipWs (l : List Char) : List Char := l.dropWhile pyIsSpace

/-- Parse the `"key": "value"` pairs of a flat JSON object body up to the
closing brace, with fuel to bound recursion. -/
def parsePairs : Nat → List Char → Option Obj
  | 0, _ => none
  | fuel + 1, l =>
    match parseStringLit (skipWs l) with
    | none => none
    | some (k, rest) =>
      match skipWs rest with
      | ':' :: rest2 =>
        match parseStringLit (skipWs rest2) with
        | none => none
        | some (v, rest3) =>
          match skipWs rest3 with
          | '\x7d' :: rest4 =>
            if (skipWs rest4).isEmpty then some [(k, Value.vstr v)] else none
          | ',' :: rest4 => (parsePairs fuel rest4).map fun o => (k, Value.vstr v) :: o
          | _ => none
      | _ => none

/-- Modelled from the spec: `json.loads` (the Python stdlib decoder, not
repository code), executable and restricted to flat string-valued JSON
objects — any other input yields `none`.  It only supplies concrete
instances (counterexamples and witnesses); the universal theorems quantify
over the decoder. -/
def jsonLoadsModel (s : String) : Option Obj :=
  match skipWs s.data with
  | '\x7b' :: rest =>
    match skipWs rest with
    | '\x7d' :: rest2 => if (skipWs rest2).isEmpty then some ([] : Obj) else none
    | l => parsePairs (l.length + 1) l
  | _ => none

/-- The 18 schema field keys declared in the extraction system prompt
(`app.py` lines 203-235). -/
def schema_keys : List String :=
  ["property_address", "landlord", "tenant", "buyer", "seller",
   "lease_start", "lease_end", "monthly_rent", "security_deposit",
   "purchase_price", "earnest_money", "late_fee", "utilities",
   "pet_policy", "termination_clause", "other_fees", "notes",
   "document_type"]

/-- C1 counterexample: for the empty backend response (an outcome the claim
explicitly covers), `clean_json_string` substitutes an empty JSON object,
the decoder returns the empty object, and the function returns it unchanged:
the resulting record contains none of the 18 schema keys, so the keys are
not defaulted to empty. -/
theorem C1_counterexample :
    extract_structured_data_of_response jsonLoadsModel "" = [] ∧
    (schema_keys.all fun k =>
      ((extract_structured_data_of_response jsonLoadsModel "").lookup k).isNone) = true := by
  exact ⟨rfl, rfl⟩

/-- C1 amended: no defaulting happens — a schema key absent from the decoded
object is absent from the returned record. -/
theorem C1_no_defaulting (parse : String → Option Obj) (raw : String) (obj : Obj)
    (k : String) (hp : parse (clean_json_string raw) = some obj)
    (hk : obj.lookup k = none) :
    (extract_structured_data_of_response parse raw).lookup k = none := by
  have hrec : extract_structured_data_of_response parse raw = obj := by
    show (match parse (clean_json_string raw) with
          | some data => data
          | none => [("notes", Value.vstr (clean_json_string raw))]) = obj
    rw [hp]
  rw [hrec]
  exact hk

/-- C1 witness: the backend returned only a `landlord` field and the record
lacks `property_address`. -/
theorem C1_witness :
    (extract_structured_data_of_response jsonLoadsModel
        "\x7b\"landlord\": \"Jane\"\x7d").lookup "property_address" = none :=
  C1_no_defaulting jsonLoadsModel "\x7b\"landlord\": \"Jane\"\x7d"
    [("landlord", Value.vstr "Jane")] "property_address" rfl rfl

/-- C2 counterexample: when the backend call raises, `extract_structured_data`
propagates the exception instead of returning a record — there is no
try/except around the completion call inside the function and no keyword
fallback anywhere in the repository. -/
theorem C2_counterexample :
    extract_structured_data jsonLoadsModel (Except.error "backend unavailable") =
      Except.error "backend unavailable" := rfl

/-- C2 amended: a raising backend call propagates out of
`extract_structured_data` unchanged; the Streamlit caller catches it and
proceeds with the empty record.  No keyword/pattern fallback exists. -/
theorem C2_exception_propagates (parse : String → Option Obj) (e : String) :
    extract_structured_data parse (Except.error e) = Except.error e ∧
    analyze_structured parse (Except.error e) = [] := ⟨rfl, rfl⟩

/-- C3 counterexample: for a fenced prose response, the degraded record's
`notes` field holds the cleaned candidate (fences stripped, trimmed), not
the raw backend response verbatim. -/
theorem C3_counterexample :
    extract_structured_data_of_response jsonLoadsModel "```json\nnot json\n```" =
      [("notes", Value.vstr "not json")] ∧
    ("not json" : String) ≠ "```json\nnot json\n```" := by
  exact ⟨rfl, by decide⟩

/-- C3 amended: on decode failure the returned record consists of the single
key `notes` (the other schema fields are absent, not empty), holding the
cleaned candidate string rather than the raw response. -/
theorem C3_degraded_record (parse : String → Option Obj) (raw : String)
    (h : parse (clean_json_string raw) = none) :
    extract_structured_data_of_response parse raw =
      [("notes", Value.vstr (clean_json_string raw))] := by
  show (match parse (clean_json_string raw) with
        | some data => data
        | none => [("notes", Value.vstr (clean_json_string raw))]) =
      [("notes", Value.vstr (clean_json_string raw))]
  rw [h]

/-- C3 witness: a plain prose response yields the single-key `notes` record
holding the prose. -/
theorem C3_witness :
    extract_structured_data_of_response jsonLoadsModel "The tenant is John." =
      [("notes", Value.vstr "The tenant is John.")] :=
  C3_degraded_record jsonLoadsModel "The tenant is John." rfl

/-- C4 counterexample: a decoded object with the unknown top-level key `foo`
keeps that key in the result (the schema is not closed) and no schema key is
merged in as a default. -/
theorem C4_counterexample :
    (extract_structured_data_of_response jsonLoadsModel
        "\x7b\"foo\": \"bar\"\x7d").lookup "foo" = some (Value.vstr "bar") ∧
    (extract_structured_data_of_response jsonLoadsModel
        "\x7b\"foo\": \"bar\"\x7d").lookup "landlord" = none := by
  exact ⟨rfl, rfl⟩

/-- C4 amended: when the cleaned response decodes successfully, the decoded
object is returned unchanged — no merge over a default record and no
discarding of unknown keys. -/
theorem C4_decoded_passthrough (parse : String → Option Obj) (raw : String)
    (obj : Obj) (hp : parse (clean_json_string raw) = some obj) :
    extract_structured_data_of_response parse raw = obj := by
  show (match parse (clean_json_string raw) with
        | some data => data
        | none => [("notes", Value.vstr (clean_json_string raw))]) = obj
  rw [hp]

/-- C4 witness: the pass-through at a concrete decoded object. -/
theorem C4_witness :
    extract_structured_data_of_response jsonLoadsModel "\x7b\"foo\": \"bar\"\x7d" =
      [("foo", Value.vstr "bar")] :=
  C4_decoded_passthrough jsonLoadsModel "\x7b\"foo\": \"bar\"\x7d"
    [("foo", Value.vstr "bar")] rfl

/-- Removing the first occurrence of a pattern that never occurs is the
identity. -/
theorem listReplaceFirst_of_not_occurs (old : List Char) :
    ∀ l : List Char, occursIn old l = false → listReplaceFirst old l = l := by
  intro l
  induction l with
  | nil => intro _; rfl
  | cons c rest ih =>
    intro h
    unfold occursIn at h
    rw [Bool.or_eq_false_iff] at h
    unfold listReplaceFirst
    rw [h.1]
    simp only [Bool.false_eq_true, if_false]
    rw [ih h.2]

/-- Stripping is the identity on a character list already clean at both
ends. -/
theorem pyStripChars_noop (p : Char → Bool) (l : List Char)
    (hl : l.dropWhile p = l) (hr : l.reverse.dropWhile p = l.reverse) :
    pyStripChars p (String.mk l) = String.mk l := by
  unfold pyStripChars
  show String.mk ((((l.dropWhile p).reverse).dropWhile p).reverse) = String.mk l
  rw [hl, hr, List.reverse_reverse]

/-- Wrap a backend payload in code fences with a leading `json` language
tag, as the unreliable backend does. -/
def fenceWrap (s : String) : String := "```json\n" ++ s ++ "\n```"

/-- C5: wrapping a bare JSON object response in code fences with a leading
`json` language tag does not change the cleaned candidate, hence not the
parsed record either, for any decoder.  The hypotheses are syntactic
consequences of `s` being a bare JSON object string: it is nonempty, has no
surrounding whitespace, does not start with a triple backtick, and does not
contain the character run `json` followed by CR LF (impossible inside a
valid JSON object, where a literal control character cannot occur inside a
string and `json` cannot occur as a bare token). -/
theorem C5_fence_invariance (parse : String → Option Obj) (s : String)
    (h1 : s.data ≠ [])
    (h2 : s.data.dropWhile pyIsSpace = s.data)
    (h3 : s.data.reverse.dropWhile pyIsSpace = s.data.reverse)
    (h4 : pyStartsWith "```" s = false)
    (h5 : occursIn ("json\r\n".data) (s.data ++ ['\n']) = false) :
    clean_json_string (fenceWrap s) = clean_json_string s ∧
    extract_structured_data_of_response parse (fenceWrap s) =
      extract_structured_data_of_response parse s := by
  have hsne : s ≠ "" := by
    intro h
    apply h1
    rw [h]
  have hstrip_s : pyStrip s = s := pyStripChars_noop pyIsSpace s.data h2 h3
  have hcleans : clean_json_string s = s := by
    unfold clean_json_string
    rw [if_neg hsne]
    show pyStrip (if pyStartsWith "```" (pyStrip s) then
        replaceFirst "json\r\n" (replaceFirst "json\n" (pyStripBacktick (pyStrip s)))
      else pyStrip s) = s
    rw [hstrip_s, if_neg (by rw [h4]; exact Bool.false_ne_true)]
    exact hstrip_s
  have hFdata : (fenceWrap s).data = "```json\n".data ++ s.data ++ "\n```".data := rfl
  have hFne : fenceWrap s ≠ "" := by
    intro h
    have hd := congrArg String.data h
    rw [hFdata] at hd
    simp at hd
  have hstripF : pyStrip (fenceWrap s) = fenceWrap s := by
    have hr : (fenceWrap s).data.reverse.dropWhile pyIsSpace = (fenceWrap s).data.reverse := by
      rw [hFdata, List.reverse_append, List.reverse_append]
      rfl
    exact pyStripChars_noop pyIsSpace (fenceWrap s).data rfl hr
  have hstart : pyStartsWith "```" (fenceWrap s) = true := rfl
  have hbt : pyStripBacktick (fenceWrap s) =
      String.mk ("json\n".data ++ s.data ++ ['\n']) := by
    unfold pyStripBacktick pyStripChars
    rw [hFdata]
    have hdrop : ("```json\n".data ++ s.data ++ "\n```".data).dropWhile (fun c => c = btick) =
        "json\n".data ++ (s.data ++ "\n```".data) := rfl
    rw [hdrop, List.reverse_append, List.reverse_append]
    have hdrop2 : (("\n```".data.reverse ++ s.data.reverse) ++ "json\n".data.reverse).dropWhile
        (fun c => c = btick) = '\n' :: (s.data.reverse ++ "json\n".data.reverse) := rfl
    rw [hdrop2, List.reverse_cons, List.reverse_append, List.reverse_reverse,
      List.reverse_reverse]
  have hpre : ("json\n".data.isPrefixOf
      ('j' :: 's' :: 'o' :: 'n' :: '\n' :: (s.data ++ ['\n']))) = true := by
    show (['j', 's', 'o', 'n', '\n'].isPrefixOf
      ('j' :: 's' :: 'o' :: 'n' :: '\n' :: (s.data ++ ['\n']))) = true
    simp
  have hrep1 : replaceFirst "json\n" (String.mk ("json\n".data ++ s.data ++ ['\n'])) =
      String.mk (s.data ++ ['\n']) := by
    unfold replaceFirst
    show String.mk (listReplaceFirst "json\n".data
        ('j' :: 's' :: 'o' :: 'n' :: '\n' :: (s.data ++ ['\n']))) =
      String.mk (s.data ++ ['\n'])
    unfold listReplaceFirst
    rw [if_pos hpre]
    rfl
  have hrep2 : replaceFirst "json\r\n" (String.mk (s.data ++ ['\n'])) =
      String.mk (s.data ++ ['\n']) := by
    unfold replaceFirst
    show String.mk (listReplaceFirst "json\r\n".data (s.data ++ ['\n'])) =
      String.mk (s.data ++ ['\n'])
    rw [listReplaceFirst_of_not_occurs _ _ h5]
  have hfinal : pyStrip (String.mk (s.data ++ ['\n'])) = s := by
    unfold pyStrip pyStripChars
    have hd1 : (s.data ++ ['\n']).dropWhile pyIsSpace = s.data ++ ['\n'] := by
      rw [List.dropWhile_append, h2]
      have hne : s.data.isEmpty = false := by
        cases hc : s.data with
        | nil => exact absurd hc h1
        | cons a l => rfl
      rw [hne]
      simp
    show String.mk ((((s.data ++ ['\n']).dropWhile pyIsSpace).reverse.dropWhile
      pyIsSpace).reverse) = s
    rw [hd1, List.reverse_append]
    have hd2 : (['\n'].reverse ++ s.data.reverse).dropWhile pyIsSpace =
        s.data.reverse.dropWhile pyIsSpace := rfl
    rw [hd2, h3, List.reverse_reverse]
  have hcleanF : clean_json_string (fenceWrap s) = s := by
    unfold clean_json_string
    rw [if_neg hFne]
    show pyStrip (if pyStartsWith "```" (pyStrip (fenceWrap s)) then
        replaceFirst "json\r\n" (replaceFirst "json\n" (pyStripBacktick (pyStrip (fenceWrap s))))
      else pyStrip (fenceWrap s)) = s
    rw [hstripF, if_pos hstart, hbt, hrep1, hrep2]
    exact hfinal
  refine ⟨hcleanF.trans hcleans.symm, ?_⟩
  show (match parse (clean_json_string (fenceWrap s)) with
        | some data => data
        | none => [("notes", Value.vstr (clean_json_string (fenceWrap s)))]) =
      (match parse (clean_json_string s) with
        | some data => data
        | none => [("notes", Value.vstr (clean_json_string s))])
  rw [hcleanF, hcleans]

/-- C5 witness: the fence invariance at a concrete object string of the
spec's own example shape. -/
theorem C5_witness :
    extract_structured_data_of_response jsonLoadsModel (fenceWrap "\x7b\"a\": \"1\"\x7d") =
      extract_structured_data_of_response jsonLoadsModel "\x7b\"a\": \"1\"\x7d" :=
  (C5_fence_invariance jsonLoadsModel "\x7b\"a\": \"1\"\x7d" (by decide) (by decide)
    (by decide) (by decide) (by decide)).2

/-- Python `structured.get(key)`: the value when the key is present,
`None` otherwise. -/
def objGet (o : Obj) (k : String) : Value :=
  match o.lookup k with
  | some v => v
  | none => Value.vnone

/-- The label/key pairs written into the summary PDF, in order
(`app.py` lines 375-393). -/
def summary_fields : List (String × String) :=
  [("Document Type", "document_type"), ("Property Address", "property_address"),
   ("Landlord", "landlord"), ("Tenant", "tenant"), ("Buyer", "buyer"),
   ("Seller", "seller"), ("Purchase Price", "purchase_price"),
   ("Earnest Money", "earnest_money"), ("Lease Start", "lease_start"),
   ("Lease End", "lease_end"), ("Monthly Rent", "monthly_rent"),
   ("Security Deposit", "security_deposit"), ("Late Fee", "late_fee"),
   ("Utilities", "utilities"), ("Other Fees", "other_fees"),
   ("Pet Policy", "pet_policy"), ("Termination Clause", "termination_clause")]

/-- The text content written into the summary PDF by `build_summary_pdf`
(`app.py` lines 365-412): the title, one `label: value` line per field
rendered via `normalize_value`, the conditional notes block, and the
conditional value-estimate block.  The FPDF writer (an external
collaborator, not repository code) is modelled as serializing exactly the
texts handed to its cells. -/
def summaryText (structured : Obj) (value_estimate : String) : String :=
  let notes := normalize_value (objGet structured "notes")
  "Real Estate Document Summary\n" ++
  String.join (summary_fields.map fun lk =>
    lk.1 ++ ": " ++ normalize_value (objGet structured lk.2) ++ "\n") ++
  (if notes ≠ "" ∧ notes ≠ "—" then "Notes\n" ++ notes ++ "\n" else "") ++
  (if value_estimate ≠ "" then "AI Property Value Estimate\n" ++ value_estimate ++ "\n"
   else "")

/-- One byte of Python `str.encode("latin-1", "replace")`: characters in the
single-byte range pass through, every other character becomes the
replacement marker `?` (byte 63). -/
def latin1ReplaceByte (c : Char) : Nat :=
  if c.toNat ≤ 255 then c.toNat else 63

/-- `build_summary_pdf` from `app.py` (lines 365-415): assemble the summary
text and encode it as latin-1 with replacement, yielding the byte payload
(`pdf.output(dest="S").encode("latin-1", "replace")`). -/
def build_summary_pdf (structured : Obj) (value_estimate : String) : List Nat :=
  (summaryText structured value_estimate).data.map latin1ReplaceByte

/-- C7: the export assembler is total and its output stays in the legacy
single-byte safe subset — every byte is below 256 — and every character
outside that subset is replaced by the replacement marker `?` rather than
aborting the export. -/
theorem C7_export_encoding_safe (structured : Obj) (value_estimate : String) :
    ((build_summary_pdf structured value_estimate).all fun b => b < 256) = true ∧
    ∀ c : Char, 255 < c.toNat → latin1ReplaceByte c = 63 := by
  have hbyte : ∀ c : Char, latin1ReplaceByte c < 256 := by
    intro c
    unfold latin1ReplaceByte
    split <;> omega
  constructor
  · rw [List.all_eq_true]
    intro b hb
    unfold build_summary_pdf at hb
    rw [List.mem_map] at hb
    obtain ⟨c, _, rfl⟩ := hb
    exact decide_eq_true (hbyte c)
  · intro c hc
    unfold latin1ReplaceByte
    rw [if_neg (by omega)]

/-- C7 witness: a record whose notes hold characters far outside latin-1
still exports to bytes in the safe subset, and the emoji maps to the
replacement marker. -/
theorem C7_witness :
    latin1ReplaceByte '🏡' = 63 ∧
    ((build_summary_pdf [("notes", Value.vstr "🏡 café — lease")] "estimate").all
      fun b => b < 256) = true :=
  ⟨(C7_export_encoding_safe [("notes", Value.vstr "🏡 café — lease")] "estimate").2
      '🏡' (by decide),
   (C7_export_encoding_safe [("notes", Value.vstr "🏡 café — lease")] "estimate").1⟩

mutual

/-- JSON rendering of a value, for the `json.dumps` model. -/
def jsonDumpVal : Value → String
  | Value.vnone => "null"
  | Value.vstr s => "\"" ++ s ++ "\""
  | Value.vdict l => "\x7b" ++ jsonDumpPairs l ++ "\x7d"
  | Value.vlist l => "[" ++ jsonDumpElems l ++ "]"

/-- JSON rendering of an object body. -/
def jsonDumpPairs : List (String × Value) → String
  | [] => ""
  | [(k, v)] => "\"" ++ k ++ "\": " ++ jsonDumpVal v
  | (k, v) :: p :: rest => "\"" ++ k ++ "\": " ++ jsonDumpVal v ++ ", " ++ jsonDumpPairs (p :: rest)

/-- JSON rendering of an array body. -/
def jsonDumpElems : List Value → String
  | [] => ""
  | [v] => jsonDumpVal v
  | v :: w :: rest => jsonDumpVal v ++ ", " ++ jsonDumpElems (w :: rest)

end

/-- Modelled from the spec: `json.dumps(structured, indent=2)` (Python
stdlib, not repository code), the deterministic stable-order record
serialization both Q&A prompt builders embed.  String escaping and nested
re-indentation are simplified; C9 depends only on both builders invoking
the identical serializer on the identical record, as the source does. -/
def json_dumps_indent2 (o : Obj) : String :=
  "\x7b\n" ++
  String.intercalate ",\n" (o.map fun p => "  \"" ++ p.1 ++ "\": " ++ jsonDumpVal p.2) ++
  "\n\x7d"

/-- The user prompt built by `answer_question_standard` (`app.py` lines
310-319): the question, the serialized record, and the first 8000
characters of the document text, in the exact f-string layout. -/
def answer_question_standard_user_prompt (question text : String) (structured : Obj) :
    String :=
  let context := json_dumps_indent2 structured
  "\n    QUESTION: " ++ question ++ "\n\n    STRUCTURED FIELDS:\n    " ++ context ++
    "\n\n    DOCUMENT EXCERPT:\n    " ++ text.take 8000 ++ "\n    "

/-- The user prompt built by `answer_question_persona` (`app.py` lines
342-351): the question, the serialized record, and the first 8000
characters of the document text, in the exact f-string layout. -/
def answer_question_persona_user_prompt (question text : String) (structured : Obj) :
    String :=
  let context := json_dumps_indent2 structured
  "\n    QUESTION: " ++ question ++ "\n\n    STRUCTURED FIELDS:\n    " ++ context ++
    "\n\n    DOCUMENT EXCERPT:\n    " ++ text.take 8000 ++ "\n    "

/-- C9: the persona selects only the system framing — for every question,
document text and structured record, the user prompts built by the neutral
and the agent persona paths are identical, so both personas see the same
record serialization and the same bounded text prefix. -/
theorem C9_personas_identical_user_prompt (question text : String) (structured : Obj) :
    answer_question_standard_user_prompt question text structured =
      answer_question_persona_user_prompt question text structured := rfl

end RealEstateAnalyzer
